import Mathlib

/-!
Verification development for the image-proxy endpoint of the backend
service (`proxy_image` in `main.py`).  The handler is embedded shallowly:
the `requests` library is abstracted as a network oracle mapping the
arguments of `requests.get` to an outcome, and the handler is a pure
function of that oracle which additionally records the list of outbound
calls it makes.
-/

/-- Python's `str.startswith(p)`: `p` is a character-wise prefix of `s`. -/
def pyStartswith (s p : String) : Bool :=
  List.isPrefixOf p.data s.data

/-- An upstream HTTP response as observed through `requests`:
`status_code`, the value of the `Content-Type` header when present
(`resp.headers.get("Content-Type")`), and the body bytes (`resp.content`),
modelled as a list of byte values. -/
structure UpstreamResponse where
  status_code : Nat
  contentTypeHeader : Option String
  content : List Nat
deriving Repr, DecidableEq

/-- The possible outcomes of `requests.get`: a response object, a
`requests.Timeout` exception, or any other exception `e` carrying the
message `str(e)`. -/
inductive FetchOutcome where
  | response (r : UpstreamResponse)
  | timeout
  | exn (msg : String)
deriving Repr, DecidableEq

/-- The network oracle: what `requests.get(url, headers=hs, timeout=t)`
does for each argument triple. -/
def Network : Type :=
  String → List (String × String) → Nat → FetchOutcome

/-- A record of one outbound `requests.get` call: the URL, the header
set, and the timeout passed to it. -/
structure Call where
  url : String
  headers : List (String × String)
  timeout : Nat
deriving Repr, DecidableEq

/-- What the handler delivers to the framework: either a `Response`
(body bytes, `media_type`, extra headers) or an `HTTPException` with a
status code and a detail string. -/
inductive ProxyResult where
  | ok (content : List Nat) (media_type : String) (headers : List (String × String))
  | httpError (status_code : Nat) (detail : String)
deriving Repr, DecidableEq

/-- The fixed header dict built by `proxy_image` before the fetch
(browser-like `User-Agent`, image-biased `Accept`, empty `Referer` and
`Origin`). -/
def browserHeaders : List (String × String) :=
  [("User-Agent", "Mozilla/5.0 (Windows NT 10.0; Win64; x64) AppleWebKit/537.36 (KHTML, like Gecko) Chrome/120.0 Safari/537.36"),
   ("Accept", "image/avif,image/webp,image/apng,image/*,*/*;q=0.8"),
   ("Referer", ""),
   ("Origin", "")]

/-- Shallow embedding of the `GET /api/image` handler `proxy_image`.
Returns the handler's result together with the list of outbound calls it
made.  The `try/except` structure of the source is reflected directly:
the two `HTTPException`s raised in the body (400 invalid URL, non-200
upstream status) pass through the `except HTTPException: raise` arm
unchanged; a `requests.Timeout` from the fetch becomes 504; any other
exception from the fetch becomes 500 with its message wrapped. -/
def proxy_image (net : Network) (src : String) : ProxyResult × List Call :=
  if ¬ (pyStartswith src "https://" = true ∨ pyStartswith src "http://" = true) then
    (.httpError 400 "Invalid URL", [])
  else
    let call : Call := ⟨src, browserHeaders, 10⟩
    match net src browserHeaders 10 with
    | .timeout => (.httpError 504 "Image fetch timed out", [call])
    | .exn msg => (.httpError 500 ("Proxy error: " ++ msg), [call])
    | .response r =>
      if r.status_code ≠ 200 then
        (.httpError r.status_code ("Upstream failed: " ++ toString r.status_code), [call])
      else
        let content_type := r.contentTypeHeader.getD "image/jpeg"
        (.ok r.content content_type
          [("Cache-Control", "public, max-age=86400"),
           ("Content-Type", content_type),
           ("X-Image-Proxy", "1")], [call])

/-- A network oracle used only to instantiate universally quantified
statements at concrete inputs: it always yields a 404 response. -/
def net404 : Network :=
  fun _ _ _ => .response ⟨404, none, []⟩

/-- A network oracle that always yields a 200 response with a PNG
content type and a two-byte body. -/
def netPng : Network :=
  fun _ _ _ => .response ⟨200, some "image/png", [7, 9]⟩

/-- A network oracle that always yields a 200 response with no
`Content-Type` header. -/
def netBare : Network :=
  fun _ _ _ => .response ⟨200, none, [1]⟩

/-- A network oracle that always times out. -/
def netTimeout : Network :=
  fun _ _ _ => .timeout

/-- A network oracle that always fails with a connection-reset
exception message. -/
def netExn : Network :=
  fun _ _ _ => .exn "connection reset"

/-- C1: any `src` that does not start with `http://` or `https://` is
rejected with HTTP 400 and detail `Invalid URL`, and no outbound call is
made. -/
theorem proxy_image_invalid_scheme_400 (net : Network) (src : String)
    (h : ¬ (pyStartswith src "https://" = true ∨ pyStartswith src "http://" = true)) :
    proxy_image net src = (.httpError 400 "Invalid URL", []) := by
  unfold proxy_image
  rw [if_pos h]

/-- Witness for C1 at `src = "ftp://example.com/x.png"`. -/
theorem proxy_image_invalid_scheme_400_witness :
    proxy_image net404 "ftp://example.com/x.png" = (.httpError 400 "Invalid URL", []) :=
  proxy_image_invalid_scheme_400 net404 "ftp://example.com/x.png" (by decide)

/-- C2: when the upstream responds with a status other than 200, the
handler never forwards the body; it raises an error whose HTTP status is
the upstream status and whose detail contains that status code. -/
theorem proxy_image_upstream_failure (net : Network) (src : String) (r : UpstreamResponse)
    (hv : pyStartswith src "https://" = true ∨ pyStartswith src "http://" = true)
    (hr : net src browserHeaders 10 = .response r)
    (hs : r.status_code ≠ 200) :
    (proxy_image net src).1 =
      .httpError r.status_code ("Upstream failed: " ++ toString r.status_code) ∧
    (∀ c m hs, (proxy_image net src).1 ≠ .ok c m hs) ∧
    (∃ pre post,
      "Upstream failed: " ++ toString r.status_code =
        pre ++ toString r.status_code ++ post) := by
  have hres : proxy_image net src =
      (.httpError r.status_code ("Upstream failed: " ++ toString r.status_code),
       [⟨src, browserHeaders, 10⟩]) := by
    unfold proxy_image
    rw [if_neg (not_not_intro hv), hr]
    dsimp only
    rw [if_pos hs]
  refine ⟨by rw [hres], ?_, "Upstream failed: ", "", by simp⟩
  intro c m hdrs
  rw [hres]
  simp

/-- Witness for C2: upstream 404 at a valid URL yields proxy status 404
with detail containing `404`. -/
theorem proxy_image_upstream_failure_witness :
    (proxy_image net404 "https://example.com/a.png").1 =
      .httpError 404 ("Upstream failed: " ++ toString (404 : Nat)) ∧
    (∀ c m hs, (proxy_image net404 "https://example.com/a.png").1 ≠ .ok c m hs) ∧
    (∃ pre post,
      "Upstream failed: " ++ toString (404 : Nat) =
        pre ++ toString (404 : Nat) ++ post) :=
  proxy_image_upstream_failure net404 "https://example.com/a.png" ⟨404, none, []⟩
    (by decide) rfl (by decide)

/-- C3: on an upstream 200, the handler returns the upstream body bytes
unchanged, with content type equal to the upstream `Content-Type` header
when present and `image/jpeg` when absent. -/
theorem proxy_image_success_body_and_content_type (net : Network) (src : String)
    (r : UpstreamResponse)
    (hv : pyStartswith src "https://" = true ∨ pyStartswith src "http://" = true)
    (hr : net src browserHeaders 10 = .response r)
    (hs : r.status_code = 200) :
    (proxy_image net src).1 =
      .ok r.content (r.contentTypeHeader.getD "image/jpeg")
        [("Cache-Control", "public, max-age=86400"),
         ("Content-Type", r.contentTypeHeader.getD "image/jpeg"),
         ("X-Image-Proxy", "1")] ∧
    (∀ v, r.contentTypeHeader = some v → r.contentTypeHeader.getD "image/jpeg" = v) ∧
    (r.contentTypeHeader = none → r.contentTypeHeader.getD "image/jpeg" = "image/jpeg") := by
  refine ⟨?_, ?_, ?_⟩
  · unfold proxy_image
    rw [if_neg (not_not_intro hv), hr]
    dsimp only
    rw [if_neg (not_not_intro hs)]
  · intro v hv'
    rw [hv']
    rfl
  · intro hn
    rw [hn]
    rfl

/-- Witness for C3: a valid URL with upstream 200, body `[7, 9]` and
`Content-Type: image/png` is relayed verbatim. -/
theorem proxy_image_success_body_and_content_type_witness :
    (proxy_image netPng "https://example.com/avatar.png").1 =
      .ok [7, 9] ((some "image/png").getD "image/jpeg")
        [("Cache-Control", "public, max-age=86400"),
         ("Content-Type", (some "image/png").getD "image/jpeg"),
         ("X-Image-Proxy", "1")] ∧
    (∀ v, (some "image/png" : Option String) = some v →
      (some "image/png" : Option String).getD "image/jpeg" = v) ∧
    ((some "image/png" : Option String) = none →
      (some "image/png" : Option String).getD "image/jpeg" = "image/jpeg") :=
  proxy_image_success_body_and_content_type netPng "https://example.com/avatar.png"
    ⟨200, some "image/png", [7, 9]⟩ (by decide) rfl rfl

/-- Helper: whenever the scheme check passes, the handler makes exactly
the single outbound call `requests.get(src, browserHeaders, 10)`,
whatever its outcome. -/
theorem proxy_image_calls_of_valid (net : Network) (src : String)
    (hv : pyStartswith src "https://" = true ∨ pyStartswith src "http://" = true) :
    (proxy_image net src).2 = [⟨src, browserHeaders, 10⟩] := by
  unfold proxy_image
  rw [if_neg (not_not_intro hv)]
  dsimp only
  cases net src browserHeaders 10 with
  | response r =>
    dsimp only
    split
    · rfl
    · rfl
  | timeout => rfl
  | exn msg => rfl

/-- C4: every successful response carries the header
`Cache-Control: public, max-age=86400` and the marker `X-Image-Proxy: 1`. -/
theorem proxy_image_success_headers (net : Network) (src : String)
    (c : List Nat) (m : String) (hdrs : List (String × String))
    (h : (proxy_image net src).1 = .ok c m hdrs) :
    ("Cache-Control", "public, max-age=86400") ∈ hdrs ∧
    ("X-Image-Proxy", "1") ∈ hdrs := by
  unfold proxy_image at h
  by_cases hv : ¬ (pyStartswith src "https://" = true ∨ pyStartswith src "http://" = true)
  · rw [if_pos hv] at h
    simp at h
  · rw [if_neg hv] at h
    dsimp only at h
    cases hnet : net src browserHeaders 10 with
    | response r =>
      rw [hnet] at h
      dsimp only at h
      by_cases hs : r.status_code ≠ 200
      · rw [if_pos hs] at h
        simp at h
      · rw [if_neg hs] at h
        dsimp only at h
        injection h with h1 h2 h3
        subst h3
        exact ⟨List.Mem.head _, List.Mem.tail _ (List.Mem.tail _ (List.Mem.head _))⟩
    | timeout =>
      rw [hnet] at h
      simp at h
    | exn msg =>
      rw [hnet] at h
      simp at h

/-- Witness for C4 on a concrete successful fetch. -/
theorem proxy_image_success_headers_witness :
    ("Cache-Control", "public, max-age=86400") ∈
      [("Cache-Control", "public, max-age=86400"),
       ("Content-Type", "image/png"),
       ("X-Image-Proxy", "1")] ∧
    ("X-Image-Proxy", "1") ∈
      [("Cache-Control", "public, max-age=86400"),
       ("Content-Type", "image/png"),
       ("X-Image-Proxy", "1")] :=
  proxy_image_success_headers netPng "https://example.com/avatar.png"
    [7, 9] "image/png"
    [("Cache-Control", "public, max-age=86400"),
     ("Content-Type", "image/png"),
     ("X-Image-Proxy", "1")] rfl

/-- C5: when the fetch raises `requests.Timeout`, the handler fails with
HTTP 504 and the timeout-specific detail, never the generic 500 kind. -/
theorem proxy_image_timeout_504 (net : Network) (src : String)
    (hv : pyStartswith src "https://" = true ∨ pyStartswith src "http://" = true)
    (ht : net src browserHeaders 10 = .timeout) :
    (proxy_image net src).1 = .httpError 504 "Image fetch timed out" ∧
    (∀ d, (proxy_image net src).1 ≠ .httpError 500 d) := by
  have hres : (proxy_image net src).1 = .httpError 504 "Image fetch timed out" := by
    unfold proxy_image
    rw [if_neg (not_not_intro hv), ht]
  refine ⟨hres, ?_⟩
  intro d hcontra
  rw [hres] at hcontra
  injection hcontra with h1 h2
  exact absurd h1 (by decide)

/-- Witness for C5 with an always-timing-out network. -/
theorem proxy_image_timeout_504_witness :
    (proxy_image netTimeout "https://example.com/a.png").1 =
      .httpError 504 "Image fetch timed out" ∧
    (∀ d, (proxy_image netTimeout "https://example.com/a.png").1 ≠ .httpError 500 d) :=
  proxy_image_timeout_504 netTimeout "https://example.com/a.png" (by decide) rfl

/-- C6: any fetch failure other than a timeout (and other than the two
in-body `HTTPException`s) is converted to HTTP 500 with a human-readable
message wrapping the exception text; the handler never lets it escape. -/
theorem proxy_image_other_failure_500 (net : Network) (src : String) (msg : String)
    (hv : pyStartswith src "https://" = true ∨ pyStartswith src "http://" = true)
    (he : net src browserHeaders 10 = .exn msg) :
    (proxy_image net src).1 = .httpError 500 ("Proxy error: " ++ msg) := by
  unfold proxy_image
  rw [if_neg (not_not_intro hv), he]

/-- Witness for C6 with a connection-reset failure. -/
theorem proxy_image_other_failure_500_witness :
    (proxy_image netExn "https://example.com/a.png").1 =
      .httpError 500 ("Proxy error: " ++ "connection reset") :=
  proxy_image_other_failure_500 netExn "https://example.com/a.png" "connection reset" (by decide) rfl

/-- C7: for every `src` passing the scheme check, the handler issues the
outbound GET with exactly the fixed browser-like header set (desktop
`User-Agent`, image-biased `Accept`, empty `Referer` and `Origin`) and a
timeout of 10. -/
theorem proxy_image_fetch_arguments (net : Network) (src : String)
    (hv : pyStartswith src "https://" = true ∨ pyStartswith src "http://" = true) :
    (proxy_image net src).2 =
      [⟨src,
        [("User-Agent", "Mozilla/5.0 (Windows NT 10.0; Win64; x64) AppleWebKit/537.36 (KHTML, like Gecko) Chrome/120.0 Safari/537.36"),
         ("Accept", "image/avif,image/webp,image/apng,image/*,*/*;q=0.8"),
         ("Referer", ""),
         ("Origin", "")],
        10⟩] := by
  rw [proxy_image_calls_of_valid net src hv, browserHeaders]

/-- Witness for C7 at a concrete valid URL. -/
theorem proxy_image_fetch_arguments_witness :
    (proxy_image netPng "https://example.com/avatar.png").2 =
      [⟨"https://example.com/avatar.png",
        [("User-Agent", "Mozilla/5.0 (Windows NT 10.0; Win64; x64) AppleWebKit/537.36 (KHTML, like Gecko) Chrome/120.0 Safari/537.36"),
         ("Accept", "image/avif,image/webp,image/apng,image/*,*/*;q=0.8"),
         ("Referer", ""),
         ("Origin", "")],
        10⟩] :=
  proxy_image_fetch_arguments netPng "https://example.com/avatar.png" (by decide)

/-- Helper: an upstream-failure detail never equals the timeout detail
(their first characters differ). -/
theorem upstream_detail_ne_timeout_detail (t : String) :
    "Upstream failed: " ++ t ≠ "Image fetch timed out" := by
  intro h
  have h1 : ("Upstream failed: " ++ t).data.head? = some (Char.ofNat 85) := rfl
  rw [h] at h1
  exact absurd h1 (by decide)

/-- Helper: an upstream-failure detail never equals its own re-wrapping
by the generic handler (their first characters differ). -/
theorem upstream_detail_ne_wrapped_detail (t : String) :
    "Upstream failed: " ++ t ≠ "Proxy error: " ++ ("Upstream failed: " ++ t) := by
  intro h
  have h1 : ("Upstream failed: " ++ t).data.head? = some (Char.ofNat 85) := rfl
  have h2 : ("Proxy error: " ++ ("Upstream failed: " ++ t)).data.head? =
      some (Char.ofNat 80) := rfl
  rw [h, h2] at h1
  exact absurd h1 (by decide)

/-- C8: each invocation with a valid `src` performs exactly one fresh
fetch, and two invocations against an unchanged upstream (two oracles
agreeing on the one call the handler makes) produce identical results —
in particular byte-identical bodies. -/
theorem proxy_image_idempotent_single_fetch (net1 net2 : Network) (src : String)
    (hv : pyStartswith src "https://" = true ∨ pyStartswith src "http://" = true)
    (hup : net1 src browserHeaders 10 = net2 src browserHeaders 10) :
    (proxy_image net1 src).2.length = 1 ∧
    (proxy_image net2 src).2.length = 1 ∧
    proxy_image net1 src = proxy_image net2 src := by
  refine ⟨?_, ?_, ?_⟩
  · rw [proxy_image_calls_of_valid net1 src hv]
    rfl
  · rw [proxy_image_calls_of_valid net2 src hv]
    rfl
  · unfold proxy_image
    rw [hup]

/-- Witness for C8 with two oracles that agree at the handler's call. -/
theorem proxy_image_idempotent_single_fetch_witness :
    (proxy_image netPng "https://example.com/avatar.png").2.length = 1 ∧
    (proxy_image netPng "https://example.com/avatar.png").2.length = 1 ∧
    proxy_image netPng "https://example.com/avatar.png" =
      proxy_image netPng "https://example.com/avatar.png" :=
  proxy_image_idempotent_single_fetch netPng netPng "https://example.com/avatar.png"
    (by decide) rfl

/-- C9: the scheme check is case-sensitive: an upper-case scheme such as
`HTTPS://example.com/a.png` is rejected with 400 `Invalid URL` and no
outbound call is made. -/
theorem proxy_image_scheme_case_sensitive (net : Network) :
    proxy_image net "HTTPS://example.com/a.png" = (.httpError 400 "Invalid URL", []) := by
  unfold proxy_image
  rw [if_pos (by decide)]

/-- C10: the two `HTTPException`s raised inside the handler body reach
the caller unchanged: the invalid-URL error stays `400 Invalid URL` and
the upstream-failure error keeps the upstream status and its own detail;
neither is re-wrapped into the generic 500 `Proxy error` form nor into
the 504 timeout form. -/
theorem proxy_image_error_kind_preserved (net : Network) (src : String) :
    (¬ (pyStartswith src "https://" = true ∨ pyStartswith src "http://" = true) →
      (proxy_image net src).1 = .httpError 400 "Invalid URL" ∧
      (proxy_image net src).1 ≠ .httpError 500 "Proxy error: Invalid URL" ∧
      (proxy_image net src).1 ≠ .httpError 504 "Image fetch timed out") ∧
    (∀ r : UpstreamResponse,
      (pyStartswith src "https://" = true ∨ pyStartswith src "http://" = true) →
      net src browserHeaders 10 = .response r →
      r.status_code ≠ 200 →
      (proxy_image net src).1 =
        .httpError r.status_code ("Upstream failed: " ++ toString r.status_code) ∧
      (proxy_image net src).1 ≠
        .httpError 500 ("Proxy error: " ++ ("Upstream failed: " ++ toString r.status_code)) ∧
      (proxy_image net src).1 ≠ .httpError 504 "Image fetch timed out") := by
  constructor
  · intro hinv
    have hres : (proxy_image net src).1 = .httpError 400 "Invalid URL" := by
      unfold proxy_image
      rw [if_pos hinv]
    refine ⟨hres, ?_, ?_⟩
    · rw [hres]
      intro h
      injection h with h1 h2
      exact absurd h2 (by decide)
    · rw [hres]
      intro h
      injection h with h1 h2
      exact absurd h1 (by decide)
  · intro r hv hr hs
    have hres : (proxy_image net src).1 =
        .httpError r.status_code ("Upstream failed: " ++ toString r.status_code) := by
      unfold proxy_image
      rw [if_neg (not_not_intro hv), hr]
      dsimp only
      rw [if_pos hs]
    refine ⟨hres, ?_, ?_⟩
    · rw [hres]
      intro h
      injection h with h1 h2
      exact absurd h2 (upstream_detail_ne_wrapped_detail (toString r.status_code))
    · rw [hres]
      intro h
      injection h with h1 h2
      exact absurd h2 (upstream_detail_ne_timeout_detail (toString r.status_code))

/-- Witness for C10 instantiating both preserved branches at concrete
inputs: an `ftp` URL on the invalid branch and a 404 upstream on the
upstream-failure branch. -/
theorem proxy_image_error_kind_preserved_witness :
    (proxy_image net404 "ftp://example.com/x.png").1 = .httpError 400 "Invalid URL" ∧
    (proxy_image net404 "https://example.com/b.png").1 =
      .httpError 404 ("Upstream failed: " ++ toString (404 : Nat)) :=
  ⟨((proxy_image_error_kind_preserved net404 "ftp://example.com/x.png").1 (by decide)).1,
   ((proxy_image_error_kind_preserved net404 "https://example.com/b.png").2
      ⟨404, none, []⟩ (by decide) rfl (by decide)).1⟩
